import Mathlib

/-!
Shallow embedding of the agentic-bootcamp repository's workflow code:
the HITL graph (`10-Important-Topics/HITL/my_agent/graph.py`), the
parallel-pattern graphs (`8-patterns/3_parallel.py`,
`8-patterns/3_1_paralell.py`), the Delivery Command Center orchestrator
(`11-Enterprise-Project-Demo/src/agents/graph.py`) and the mid-term RAG
pipeline (`5-MidTermProject/`).  Hosted LLM calls, vector search and the
Redis server are external effects and appear as oracle parameters; all
control flow, state merging, prompt assembly and error handling is
translated from the Python source.
-/

/-- A value stored in a LangGraph state dictionary: a Python `str`,
`bool`, or `None` (also standing for an absent `Optional` value). -/
inductive PyVal where
  | str (s : String)
  | bool (b : Bool)
  | none
deriving DecidableEq, Repr

/-- Python truthiness of a `PyVal` (`if value:`): a string is truthy when
non-empty, a bool is itself, `None` is falsy. -/
def PyVal.truthy : PyVal → Bool
  | .str s => s != ""
  | .bool b => b
  | .none => false

/-- Read a `PyVal` as a Python `str`; non-strings read as `""`. -/
def PyVal.asStr : PyVal → String
  | .str s => s
  | _ => ""

/-- A LangGraph state dictionary: a partial map from field names to values
(`Option.none` means the key is absent from the dict). -/
abbrev StateMap : Type := String → Option PyVal

/-- A partial state update returned by a node: an association list of
(key, value) pairs, i.e. the Python dict literal the node returns. -/
abbrev StateUpd : Type := List (String × PyVal)

/-- `state.get(k)`: the stored value, or Python `None` when absent. -/
def pyGet (st : StateMap) (k : String) : PyVal := (st k).getD .none

/-- The keys written by a partial update. -/
def updKeys (u : StateUpd) : List String := u.map Prod.fst

/-- LangGraph's shallow key-value merge of a node's partial update into
the running state: keys present in the update are overwritten, all other
keys keep their previous binding. -/
def applyUpdate (u : StateUpd) (st : StateMap) : StateMap :=
  fun k => match u.lookup k with
    | some v => some v
    | Option.none => st k

namespace HITL

/-! Embedding of `10-Important-Topics/HITL/my_agent/graph.py`.  The
`ChatOpenAI` model is the oracle parameter `llm : String → String`
(prompt to completion content). -/

/-- The `State` TypedDict's declared keys (`total=False`, so every key is
optional and the state is a partial dict over these keys). -/
def state_schema : List String :=
  ["user_input", "route", "research_notes", "draft",
   "approval_required", "human_decision", "human_edit", "final_answer"]

/-- `supervisor_router`: route to research when there are no research
notes yet, otherwise route to write (both remaining branches return
`{"route": "write"}`). -/
def supervisor_router (st : StateMap) : StateUpd :=
  if !(pyGet st "research_notes").truthy then [("route", .str "research")]
  else if !(pyGet st "draft").truthy then [("route", .str "write")]
  else [("route", .str "write")]

/-- The prompt `research_worker` sends to the model. -/
def research_prompt (user_input : String) : String :=
  "You are a Research Agent. Create concise bullet notes for the user request.\n" ++
  "Rules:\n" ++
  "- Use 6-10 bullets\n" ++
  "- No final answer, only notes\n\n" ++
  "User request: " ++ user_input

/-- `research_worker`: invoke the model on the research prompt and store
the notes. -/
def research_worker (llm : String → String) (st : StateMap) : StateUpd :=
  [("research_notes", .str (llm (research_prompt (pyGet st "user_input").asStr)))]

/-- The prompt `writer_worker` sends to the model
(`state.get("research_notes", "")` defaults to the empty string). -/
def writer_prompt (user_input research_notes : String) : String :=
  "You are a Writer Agent. Write a clear final answer using the research notes.\n" ++
  "Rules:\n" ++
  "- Keep it structured\n" ++
  "- Keep it practical\n\n" ++
  "User request: " ++ user_input ++ "\n\n" ++
  "Research notes:\n" ++ research_notes

/-- `writer_worker`: invoke the model on the writer prompt and store the
draft. -/
def writer_worker (llm : String → String) (st : StateMap) : StateUpd :=
  [("draft", .str (llm (writer_prompt (pyGet st "user_input").asStr
      (pyGet st "research_notes").asStr)))]

/-- `risk_gate`: the demo always requires approval. -/
def risk_gate (_st : StateMap) : StateUpd :=
  [("approval_required", .bool true)]

/-- The resume value delivered to a LangGraph `interrupt`: Python `None`
or a dict of strings (`decision`, `edited_text`, `reason`). -/
abbrev ResumeVal : Type := Option (List (String × String))

/-- The payload `human_approval` hands to `interrupt`, shown to the human
while the graph is paused. -/
def approval_payload (st : StateMap) : List (String × String) :=
  [("message", "Human approval required. Choose: approve | edit | reject"),
   ("draft", (pyGet st "draft").asStr),
   ("instructions", "If edit: return an edited version of the draft. If reject: explain why.")]

/-- `(response or {}).get("decision", "approve")`. -/
def resume_decision (response : ResumeVal) : String :=
  ((response.getD []).lookup "decision").getD "approve"

/-- Outcome of one execution of the `human_approval` node: either the
graph pauses at the interrupt (no resume value has been supplied yet) and
the payload is surfaced, or a resume value was supplied and the node
returns its state update. -/
inductive ApprovalStep where
  | paused (payload : List (String × String))
  | resumed (upd : StateUpd)
deriving DecidableEq, Repr

/-- `human_approval`: raise `interrupt(payload)` when no resume value has
been supplied (the graph pauses); on resumption read the decision
(default `"approve"`), and on decision `"edit"` also store
`(response or {}).get("edited_text", state["draft"])`. -/
def human_approval (st : StateMap) : Option ResumeVal → ApprovalStep
  | Option.none => .paused (approval_payload st)
  | some response =>
    let decision := resume_decision response
    if decision = "edit" then
      .resumed [("human_decision", .str decision),
        ("human_edit", .str (((response.getD []).lookup "edited_text").getD
          (pyGet st "draft").asStr))]
    else
      .resumed [("human_decision", .str decision)]

/-- `finalizer`: on `"reject"` emit a rejection notice (whose reason is
taken from `human_edit` when truthy), on `"edit"` with a truthy
`human_edit` emit the edit, otherwise emit the draft. -/
def finalizer (st : StateMap) : StateUpd :=
  let decision := match st "human_decision" with
    | some v => v.asStr
    | Option.none => "approve"
  if decision = "reject" then
    [("final_answer", .str ("Rejected by human reviewer.\n\nReason: " ++
      (if (pyGet st "human_edit").truthy then (pyGet st "human_edit").asStr
       else "No reason provided.")))]
  else if decision = "edit" && (pyGet st "human_edit").truthy then
    [("final_answer", pyGet st "human_edit")]
  else
    [("final_answer", pyGet st "draft")]

/-- The conditional-edge selector out of `supervisor_router`:
`state["route"]`. -/
def route_selector (st : StateMap) : String := (pyGet st "route").asStr

/-- The target table of the conditional edge out of `supervisor_router`. -/
def route_targets : List (String × String) :=
  [("research", "research_worker"), ("write", "writer_worker")]

/-- The conditional-edge selector out of `risk_gate`:
`"human" if state.get("approval_required") else "final"`. -/
def approval_selector (st : StateMap) : String :=
  if (pyGet st "approval_required").truthy then "human" else "final"

/-- The target table of the conditional edge out of `risk_gate`. -/
def approval_targets : List (String × String) :=
  [("human", "human_approval"), ("final", "finalizer")]

/-- The node that follows `risk_gate` in a run, given the state after
`risk_gate`'s update was merged. -/
def risk_gate_successor (st : StateMap) : Option String :=
  approval_targets.lookup (approval_selector st)

end HITL

namespace ParallelPattern

/-! Embedding of `8-patterns/3_parallel.py`.  Each
`PerspectiveAgent.analyze` is an oracle `String → String` from the user
request to the analysis content; the aggregator's model call is an oracle
over the user request and the joined perspectives text. -/

/-- The `State` pydantic model's declared fields. -/
def state_schema : List String :=
  ["user_request", "perspective_1", "perspective_2", "perspective_3", "final_result"]

/-- `parallel_1_node`: technical perspective on `state.user_request`. -/
def parallel_1_node (agent1 : String → String) (st : StateMap) : StateUpd :=
  [("perspective_1", .str (agent1 (pyGet st "user_request").asStr))]

/-- `parallel_2_node`: business perspective on `state.user_request`. -/
def parallel_2_node (agent2 : String → String) (st : StateMap) : StateUpd :=
  [("perspective_2", .str (agent2 (pyGet st "user_request").asStr))]

/-- `parallel_3_node`: UX perspective on `state.user_request`. -/
def parallel_3_node (agent3 : String → String) (st : StateMap) : StateUpd :=
  [("perspective_3", .str (agent3 (pyGet st "user_request").asStr))]

/-- `AggregatorAgent.aggregate`'s joined perspectives text:
`"\n\n".join(f"Perspective i+1:\np" for i, p in enumerate(perspectives) if p)`. -/
def perspectives_text (perspectives : List PyVal) : String :=
  String.intercalate "\n\n" (perspectives.enum.filterMap (fun ip =>
    if ip.2.truthy then
      some ("Perspective " ++ toString (ip.1 + 1) ++ ":\n" ++ ip.2.asStr)
    else Option.none))

/-- `aggregate_node`: combine the three perspectives via the aggregator's
model call. -/
def aggregate_node (aggLLM : String → String → String) (st : StateMap) : StateUpd :=
  [("final_result", .str (aggLLM (pyGet st "user_request").asStr
    (perspectives_text
      [pyGet st "perspective_1", pyGet st "perspective_2", pyGet st "perspective_3"])))]

/-- The entry point set by `workflow.set_entry_point("parallel_1")`. -/
def entry_point : String := "parallel_1"

/-- The edges added in `create_workflow` (all unconditional). -/
def edges : List (String × String) :=
  [("parallel_1", "parallel_2"), ("parallel_2", "parallel_3"),
   ("parallel_3", "aggregate"), ("aggregate", "END")]

/-- Follow the unconditional edges from a node until `END` (or until the
fuel runs out), collecting the sequence of nodes executed.  Because every
node of this graph has exactly one outgoing edge and no conditional
edges, this trace is the node order of every run, and each node starts
only after its predecessor in the trace has finished. -/
def trace (es : List (String × String)) : String → Nat → List String
  | _, 0 => []
  | n, fuel + 1 =>
    if n = "END" then []
    else n :: (match es.lookup n with
      | some m => trace es m fuel
      | Option.none => [])

/-- The node execution order of every run of the compiled workflow. -/
def run_order : List String := trace edges entry_point 10

/-- The number of outgoing edges of a node. -/
def out_degree (es : List (String × String)) (n : String) : Nat :=
  (es.filter (fun p => p.1 = n)).length

end ParallelPattern

namespace ParallelV2

/-! Embedding of `8-patterns/3_1_paralell.py` (the true-parallel
variant).  `run_parallel_node` creates three coroutines from the three
perspective agents and awaits them together with `asyncio.gather`; each
coroutine is an application of an agent oracle to `state.user_request`
alone — it reads no other state field and no result of its siblings. -/

/-- `run_parallel_node`: the state update produced once the three
gathered coroutines have completed. -/
def run_parallel_node (agent1 agent2 agent3 : String → String) (st : StateMap) : StateUpd :=
  [("perspective_1", .str (agent1 (pyGet st "user_request").asStr)),
   ("perspective_2", .str (agent2 (pyGet st "user_request").asStr)),
   ("perspective_3", .str (agent3 (pyGet st "user_request").asStr))]

/-- `aggregate_node` of the true-parallel variant. -/
def aggregate_node (aggLLM : String → String → String) (st : StateMap) : StateUpd :=
  [("final_result", .str (aggLLM (pyGet st "user_request").asStr
    (ParallelPattern.perspectives_text
      [pyGet st "perspective_1", pyGet st "perspective_2", pyGet st "perspective_3"])))]

/-- The workflow examples of the repository (every file that builds a
`StateGraph`), each tagged with whether its node code performs concurrent
awaiting of independent model calls (an `await asyncio.gather(...)` of
coroutines sharing no mutable state).  Extracted from the source files:
only `8-patterns/3_1_paralell.py` contains `await`/`asyncio.gather`; all
other listed files invoke their models synchronously inside each node. -/
def workflow_examples : List (String × Bool) :=
  [("3-langgraph/2.hello-langgraph.py", false),
   ("3-langgraph/3-memory-saver.py", false),
   ("8-patterns/1_supervisor_worker.py", false),
   ("8-patterns/2_sequential.py", false),
   ("8-patterns/3_parallel.py", false),
   ("8-patterns/3_1_paralell.py", true),
   ("8-patterns/4_hierarchical.py", false),
   ("9-Deployment/my_agent/graph.py", false),
   ("10-Important-Topics/HITL/my_agent/graph.py", false),
   ("11-Enterprise-Project-Demo/src/agents/graph.py", false)]

end ParallelV2

namespace CommandCenter

/-! Embedding of `11-Enterprise-Project-Demo/src/agents/graph.py` with
state type `11-Enterprise-Project-Demo/src/agents/types.py`.  The type
parameter `α` stands for Python `Dict[str, Any]` agent outputs; each
agent method is an oracle returning `Except String α`, where
`.error e` models the method raising an exception whose `str(...)` is
`e`. -/

/-- The `WorkflowState` TypedDict (all keys initialised by `run`). -/
structure WorkflowState (α : Type) where
  user_request : String
  user_id : String
  user_role : String
  conversation_id : String
  plan : α
  jira_analysis : α
  risk_report : α
  dependency_analysis : α
  comms_output : α
  proposed_actions : α
  governance_check : α
  evaluation_results : α
  final_output : α
  errors : List String
deriving DecidableEq, Repr

/-- A node's returned partial update: every node of the graph returns a
single-key dict, either its own output key or the `errors` key. -/
inductive NodeUpd (α : Type) where
  | plan (v : α)
  | jira_analysis (v : α)
  | risk_report (v : α)
  | dependency_analysis (v : α)
  | comms_output (v : α)
  | proposed_actions (v : α)
  | governance_check (v : α)
  | evaluation_results (v : α)
  | final_output (v : α)
  | errors (l : List String)
deriving DecidableEq, Repr

/-- LangGraph's merge of a node's partial update into the `WorkflowState`:
the single returned key is overwritten, every other key is unchanged. -/
def applyNodeUpd {α : Type} : NodeUpd α → WorkflowState α → WorkflowState α
  | .plan v, st => { st with plan := v }
  | .jira_analysis v, st => { st with jira_analysis := v }
  | .risk_report v, st => { st with risk_report := v }
  | .dependency_analysis v, st => { st with dependency_analysis := v }
  | .comms_output v, st => { st with comms_output := v }
  | .proposed_actions v, st => { st with proposed_actions := v }
  | .governance_check v, st => { st with governance_check := v }
  | .evaluation_results v, st => { st with evaluation_results := v }
  | .final_output v, st => { st with final_output := v }
  | .errors l, st => { st with errors := l }

/-- `_planner_node`: `self.planner.create_plan(state["user_request"])`
inside `try`, exceptions turned into one appended error message. -/
def planner_node {α : Type} (create_plan : String → Except String α)
    (st : WorkflowState α) : NodeUpd α :=
  match create_plan st.user_request with
  | .ok plan => .plan plan
  | .error e => .errors (st.errors ++ ["Planner error: " ++ e])

/-- `_jira_analyst_node`: `analyze_sprint_health(days_ahead=14)`. -/
def jira_analyst_node {α : Type} (analyze_sprint_health : Nat → Except String α)
    (st : WorkflowState α) : NodeUpd α :=
  match analyze_sprint_health 14 with
  | .ok analysis => .jira_analysis analysis
  | .error e => .errors (st.errors ++ ["JIRA analysis error: " ++ e])

/-- `_risk_agent_node`: `compute_risk(state.get("jira_analysis", {}), days_ahead=14)`. -/
def risk_agent_node {α : Type} (compute_risk : α → Nat → Except String α)
    (st : WorkflowState α) : NodeUpd α :=
  match compute_risk st.jira_analysis 14 with
  | .ok report => .risk_report report
  | .error e => .errors (st.errors ++ ["Risk analysis error: " ++ e])

/-- `_dependency_agent_node`: extracts the stories of the JIRA analysis
(`.get("data", {}).get("stories", [])`, which cannot raise) and calls
`analyze_dependencies(stories, jira_analysis)`. -/
def dependency_agent_node {α β : Type} (stories_of : α → β)
    (analyze_dependencies : β → α → Except String α)
    (st : WorkflowState α) : NodeUpd α :=
  match analyze_dependencies (stories_of st.jira_analysis) st.jira_analysis with
  | .ok analysis => .dependency_analysis analysis
  | .error e => .errors (st.errors ++ ["Dependency analysis error: " ++ e])

/-- `_comms_agent_node`: drafts the stakeholder email and then the status
report inside one `try`; on success returns the two-field
`comms_output` dict built by `mk_comms`. -/
def comms_agent_node {α : Type}
    (draft_stakeholder_email : α → α → Nat → Except String α)
    (draft_status_report : α → α → Except String α)
    (mk_comms : α → α → α) (st : WorkflowState α) : NodeUpd α :=
  match draft_stakeholder_email st.risk_report st.jira_analysis 14 with
  | .error e => .errors (st.errors ++ ["Comms error: " ++ e])
  | .ok email =>
    match draft_status_report st.jira_analysis st.risk_report with
    | .error e => .errors (st.errors ++ ["Comms error: " ++ e])
    | .ok status_report => .comms_output (mk_comms email status_report)

/-- `_action_agent_node`: `prepare_actions(risk_report, dependency_analysis, comms_output)`. -/
def action_agent_node {α : Type}
    (prepare_actions : α → α → α → Except String α)
    (st : WorkflowState α) : NodeUpd α :=
  match prepare_actions st.risk_report st.dependency_analysis st.comms_output with
  | .ok actions => .proposed_actions actions
  | .error e => .errors (st.errors ++ ["Action error: " ++ e])

/-- `_governance_agent_node`: `validate_actions(proposed_actions)`. -/
def governance_agent_node {α : Type}
    (validate_actions : α → Except String α)
    (st : WorkflowState α) : NodeUpd α :=
  match validate_actions st.proposed_actions with
  | .ok validation => .governance_check validation
  | .error e => .errors (st.errors ++ ["Governance error: " ++ e])

/-- `_evaluator_node`: `evaluate_workflow(state)`. -/
def evaluator_node {α : Type}
    (evaluate_workflow : WorkflowState α → Except String α)
    (st : WorkflowState α) : NodeUpd α :=
  match evaluate_workflow st with
  | .ok results => .evaluation_results results
  | .error e => .errors (st.errors ++ ["Evaluation error: " ++ e])

/-- `_finalize_node`: assembles the `final_output` dict from the state
(formatting of the risk report, extraction of proposed actions, ...)
inside one `try`; the assembly is the oracle `build_final_output`. -/
def finalize_node {α : Type}
    (build_final_output : WorkflowState α → Except String α)
    (st : WorkflowState α) : NodeUpd α :=
  match build_final_output st with
  | .ok output => .final_output output
  | .error e => .errors (st.errors ++ ["Finalization error: " ++ e])

end CommandCenter

namespace MidTermRag

/-! Embedding of the `5-MidTermProject` RAG pipeline: `cache_store.py`,
`retrieval.py`, `router.py` and `main.py`.  The Redis server backing the
cache is a partial map `RedisStore`; `redis_client` being `None` (failed
import-time connection) is the `Option.none` client.  Vector search
(`vector_store.retrieve_documents`) and the chat model
(`llm_client.call`) are oracles. -/

/-- The contents of the Redis server backing the cache. -/
abbrev RedisStore : Type := String → Option String

/-- `config.DEFAULT_MODEL`. -/
def DEFAULT_MODEL : String := "gpt-4.1-nano"

/-- `config.CACHE_TTL_SECONDS`. -/
def CACHE_TTL_SECONDS : Nat := 1800

/-- `cache_store._key`. -/
def cache_key (k : String) : String := "rag:cache:" ++ k

/-- Import-time initialisation of `cache_store.redis_client`: on any
connection/ping exception the client is set to `None`. -/
def init_redis_client (connect : Except String RedisStore) : Option RedisStore :=
  match connect with
  | .ok client => some client
  | .error _ => Option.none

/-- `cache_store.get`: `redis_client.get(_key(k))`, decoded, with an
empty/absent value read as `None`.  When `redis_client` is `None` the
attribute access raises `AttributeError` instead of reporting a miss. -/
def cache_get (client : Option RedisStore) (k : String) : Except String (Option String) :=
  match client with
  | Option.none => .error "AttributeError: NoneType object has no attribute get"
  | some store =>
    .ok (match store (cache_key k) with
      | some v => if v = "" then Option.none else some v
      | Option.none => Option.none)

/-- `cache_store.set`: `redis_client.setex(_key(k), ttl, v)` (the TTL has
no observable effect in this timeless model); returns the updated store.
When `redis_client` is `None` the attribute access raises
`AttributeError` instead of being a no-op. -/
def cache_set (client : Option RedisStore) (k v : String)
    (_ttl : Nat := CACHE_TTL_SECONDS) : Except String RedisStore :=
  match client with
  | Option.none => .error "AttributeError: NoneType object has no attribute setex"
  | some store => .ok (fun q => if q = cache_key k then some v else store q)

/-- `retrieval.retrieve_context`: join the `k` (default 3) retrieved
chunks with blank lines. -/
def retrieve_context (retrieve_documents : String → Nat → List String)
    (query : String) (k : Nat := 3) : String :=
  String.intercalate "\n\n" (retrieve_documents query k)

/-- `router.TEMPLATE`, with the two format fields spliced in. -/
def TEMPLATE (context_block question : String) : String :=
  " You are a helpful assistant, answer the questions as best as you can.\n" ++
  context_block ++ "\n\n\nQuestion: " ++ question ++ "\n\nAnswer:\n"

/-- `router.build_prompt`: prepend the `Context:` block exactly when the
context is non-blank, and pair the prompt with the default model name. -/
def build_prompt (question context : String) : String × String :=
  let context_block := if context.trim = "" then "" else "Context: " ++ context
  (DEFAULT_MODEL, TEMPLATE context_block question)

/-- Observable outcome of one successful `run_pipeline` call: the
returned response, the Redis store afterwards, and how many retrieval
and model calls were made. -/
structure PipelineResult where
  response : String
  client : Option RedisStore
  retrieval_calls : Nat
  llm_calls : Nat

/-- `main.run_pipeline`: check the cache; on a (truthy) hit return the
cached response; on a miss retrieve the context, build the prompt, call
the model, cache the response under the question and return it.  Raised
exceptions (e.g. from a `None` Redis client) propagate as `.error`. -/
def run_pipeline (retrieve_documents : String → Nat → List String)
    (llm_call : String → String → String)
    (client : Option RedisStore) (question : String) :
    Except String PipelineResult := do
  let cached_response ← cache_get client question
  match cached_response with
  | some r => return { response := r, client := client, retrieval_calls := 0, llm_calls := 0 }
  | Option.none =>
    let context := retrieve_context retrieve_documents question
    let mp := build_prompt question context
    let response := llm_call mp.1 mp.2
    let store2 ← cache_set client question response
    return { response := response, client := some store2,
             retrieval_calls := 1, llm_calls := 1 }

end MidTermRag

/-! ## Helper lemmas -/

/-- A key not written by an update has no binding in it. -/
theorem lookup_eq_none_of_not_mem_updKeys (u : StateUpd) (k : String)
    (h : k ∉ updKeys u) : u.lookup k = Option.none := by
  induction u with
  | nil => rfl
  | cons p t ih =>
    simp only [updKeys, List.map_cons, List.mem_cons, not_or] at h
    have hne : (k == p.1) = false := by
      simp [h.1]
    cases p with
    | mk a b =>
      simp only [List.lookup, hne]
      exact ih (by simpa [updKeys] using h.2)

/-- A key written by an update reads back its written value after the
merge. -/
theorem applyUpdate_lookup_some (u : StateUpd) (st : StateMap) (k : String)
    (v : PyVal) (h : u.lookup k = some v) : applyUpdate u st k = some v := by
  simp [applyUpdate, h]

/-- A key not written by an update keeps its previous binding after the
merge. -/
theorem applyUpdate_frame (u : StateUpd) (st : StateMap) (k : String)
    (h : k ∉ updKeys u) : applyUpdate u st k = st k := by
  simp [applyUpdate, lookup_eq_none_of_not_mem_updKeys u k h]

/-- `supervisor_router` always writes exactly the `route` key. -/
theorem supervisor_router_keys (st : StateMap) :
    updKeys (HITL.supervisor_router st) = ["route"] := by
  unfold HITL.supervisor_router
  repeat' split
  all_goals rfl

/-- `finalizer` always writes exactly the `final_answer` key. -/
theorem finalizer_keys (st : StateMap) :
    updKeys (HITL.finalizer st) = ["final_answer"] := by
  unfold HITL.finalizer
  dsimp only
  repeat' split
  all_goals rfl

/-- A resumed `human_approval` writes `human_decision`, and possibly also
`human_edit`. -/
theorem human_approval_resumed_keys (st : StateMap) (response : HITL.ResumeVal)
    (u : StateUpd) (h : HITL.human_approval st (some response) = .resumed u) :
    updKeys u = ["human_decision"] ∨ updKeys u = ["human_decision", "human_edit"] := by
  simp only [HITL.human_approval] at h
  by_cases he : HITL.resume_decision response = "edit"
  · rw [if_pos he] at h
    cases h
    right
    rfl
  · rw [if_neg he] at h
    cases h
    left
    rfl

/-! ## Claim theorems -/

/-- C8: `risk_gate` sets `approval_required` to `True` for every state;
consequently, in the state obtained by merging `risk_gate`'s update, the
conditional edge out of `risk_gate` selects `"human"` and its successor
is the `human_approval` node (so the `"final"` shortcut
`risk_gate → finalizer` is never taken, and every run that reaches
`risk_gate` passes through `human_approval` before `finalizer`). -/
theorem C8_risk_gate_always_requires_approval :
    ∀ st : StateMap,
      HITL.risk_gate st = [("approval_required", PyVal.bool true)] ∧
      HITL.approval_selector (applyUpdate (HITL.risk_gate st) st) = "human" ∧
      HITL.risk_gate_successor (applyUpdate (HITL.risk_gate st) st) =
        some "human_approval" := by
  intro st
  refine ⟨rfl, ?_, ?_⟩ <;>
    simp [HITL.risk_gate, HITL.approval_selector, HITL.risk_gate_successor,
      HITL.approval_targets, applyUpdate, pyGet, PyVal.truthy, List.lookup]

/-- C4: the conditional edge out of `supervisor_router` is decided solely
by the `route` field (the selector is a function of `state["route"]`
alone, and the edge table maps `"research"` to `research_worker` and
`"write"` to `writer_worker`); and for every state whose
`research_notes` field is absent or a string, `supervisor_router` sets
`route` to `"research"` exactly when `research_notes` is missing or
empty, and to `"write"` otherwise. -/
theorem C4_supervisor_routing :
    (∀ st st' : StateMap, st "route" = st' "route" →
        HITL.route_selector st = HITL.route_selector st') ∧
    HITL.route_targets.lookup "research" = some "research_worker" ∧
    HITL.route_targets.lookup "write" = some "writer_worker" ∧
    (∀ st : StateMap,
      (st "research_notes" = Option.none ∨
        ∃ s : String, st "research_notes" = some (PyVal.str s)) →
      (((HITL.supervisor_router st).lookup "route" = some (PyVal.str "research")) ↔
        (st "research_notes" = Option.none ∨
          st "research_notes" = some (PyVal.str ""))) ∧
      ((HITL.supervisor_router st).lookup "route" = some (PyVal.str "research") ∨
       (HITL.supervisor_router st).lookup "route" = some (PyVal.str "write"))) := by
  refine ⟨?_, rfl, rfl, ?_⟩
  · intro st st' h
    simp [HITL.route_selector, pyGet, h]
  · intro st h
    rcases h with h | ⟨s, h⟩
    · constructor
      · simp [HITL.supervisor_router, pyGet, h, PyVal.truthy, List.lookup]
      · left
        simp [HITL.supervisor_router, pyGet, h, PyVal.truthy, List.lookup]
    · by_cases hs : s = ""
      · subst hs
        constructor
        · simp [HITL.supervisor_router, pyGet, h, PyVal.truthy, List.lookup]
        · left
          simp [HITL.supervisor_router, pyGet, h, PyVal.truthy, List.lookup]
      · constructor
        · simp [HITL.supervisor_router, pyGet, h, PyVal.truthy, hs, List.lookup]
        · right
          simp [HITL.supervisor_router, pyGet, h, PyVal.truthy, hs, List.lookup]

/-- C4 witness: at the empty state (no `research_notes`), the router sets
`route` to `"research"`. -/
theorem C4_witness :
    (HITL.supervisor_router (fun _ => Option.none)).lookup "route" =
      some (PyVal.str "research") :=
  ((C4_supervisor_routing.2.2.2 (fun _ => Option.none) (Or.inl rfl)).1).mpr
    (Or.inl rfl)

/-- C3: every node function of the HITL graph and of the parallel-pattern
graph returns a partial update whose keys are among the declared state
schema, and applying an update is a shallow key-value merge: a key bound
by the update is overwritten with the update's value, and every state key
not present in the update keeps its previous value. -/
theorem C3_partial_update_shallow_merge :
    (∀ (u : StateUpd) (st : StateMap) (k : String),
        k ∉ updKeys u → applyUpdate u st k = st k) ∧
    (∀ (u : StateUpd) (st : StateMap) (k : String) (v : PyVal),
        u.lookup k = some v → applyUpdate u st k = some v) ∧
    (∀ (llm : String → String) (st : StateMap),
        updKeys (HITL.supervisor_router st) ⊆ HITL.state_schema ∧
        updKeys (HITL.research_worker llm st) ⊆ HITL.state_schema ∧
        updKeys (HITL.writer_worker llm st) ⊆ HITL.state_schema ∧
        updKeys (HITL.risk_gate st) ⊆ HITL.state_schema ∧
        updKeys (HITL.finalizer st) ⊆ HITL.state_schema) ∧
    (∀ (st : StateMap) (response : HITL.ResumeVal) (u : StateUpd),
        HITL.human_approval st (some response) = .resumed u →
        updKeys u ⊆ HITL.state_schema) ∧
    (∀ (agent : String → String) (aggLLM : String → String → String) (st : StateMap),
        updKeys (ParallelPattern.parallel_1_node agent st) ⊆ ParallelPattern.state_schema ∧
        updKeys (ParallelPattern.parallel_2_node agent st) ⊆ ParallelPattern.state_schema ∧
        updKeys (ParallelPattern.parallel_3_node agent st) ⊆ ParallelPattern.state_schema ∧
        updKeys (ParallelPattern.aggregate_node aggLLM st) ⊆ ParallelPattern.state_schema) := by
  refine ⟨applyUpdate_frame, applyUpdate_lookup_some, ?_, ?_, ?_⟩
  · intro llm st
    refine ⟨?_, ?_, ?_, ?_, ?_⟩
    · intro k hk
      rw [supervisor_router_keys] at hk
      simp only [List.mem_singleton] at hk
      subst hk
      decide
    · intro k hk
      simp only [HITL.research_worker, updKeys, List.map_cons, List.map_nil,
        List.mem_singleton] at hk
      subst hk
      decide
    · intro k hk
      simp only [HITL.writer_worker, updKeys, List.map_cons, List.map_nil,
        List.mem_singleton] at hk
      subst hk
      decide
    · intro k hk
      simp only [HITL.risk_gate, updKeys, List.map_cons, List.map_nil,
        List.mem_singleton] at hk
      subst hk
      decide
    · intro k hk
      rw [finalizer_keys] at hk
      simp only [List.mem_singleton] at hk
      subst hk
      decide
  · intro st response u hu
    intro k hk
    rcases human_approval_resumed_keys st response u hu with h | h <;>
      rw [h] at hk
    · simp only [List.mem_singleton] at hk
      subst hk
      decide
    · simp only [List.mem_cons, List.not_mem_nil, or_false] at hk
      rcases hk with rfl | rfl <;> decide
  · intro agent aggLLM st
    refine ⟨?_, ?_, ?_, ?_⟩ <;>
    · intro k hk
      simp only [ParallelPattern.parallel_1_node, ParallelPattern.parallel_2_node,
        ParallelPattern.parallel_3_node, ParallelPattern.aggregate_node,
        updKeys, List.map_cons, List.map_nil, List.mem_singleton] at hk
      subst hk
      decide

/-- C3 witness: merging `research_worker`'s update (at an identity model
oracle and the empty state) leaves the unrelated `draft` key unchanged,
and writes the `research_notes` key it binds. -/
theorem C3_witness :
    applyUpdate (HITL.research_worker id (fun _ => Option.none))
        (fun _ => Option.none) "draft" = Option.none ∧
    applyUpdate [("research_notes", PyVal.str "n")] (fun _ => Option.none)
        "research_notes" = some (PyVal.str "n") := by
  constructor
  · exact C3_partial_update_shallow_merge.1
      (HITL.research_worker id (fun _ => Option.none)) (fun _ => Option.none)
      "draft" (by decide)
  · exact C3_partial_update_shallow_merge.2.1
      [("research_notes", PyVal.str "n")] (fun _ => Option.none)
      "research_notes" (PyVal.str "n") (by decide)

/-- C1: in `3_parallel.py` every run executes the nodes in the fixed
strict sequence `parallel_1`, `parallel_2`, `parallel_3`, `aggregate`
(the edge relation is an unconditional chain, each node has exactly one
outgoing edge, so in the trace semantics each node begins only after its
predecessor completes); and among the repository's workflow examples only
`3_1_paralell.py` performs concurrent awaiting of its perspective calls,
whose gathered coroutines are independent: each perspective is a function
of `user_request` and its own agent alone, unaffected by the other
agents or any other state field. -/
theorem C1_parallel_is_sequential_only_v2_concurrent :
    ParallelPattern.run_order =
      ["parallel_1", "parallel_2", "parallel_3", "aggregate"] ∧
    (∀ n, n ∈ ["parallel_1", "parallel_2", "parallel_3", "aggregate"] →
      ParallelPattern.out_degree ParallelPattern.edges n = 1) ∧
    ParallelPattern.edges.lookup "parallel_1" = some "parallel_2" ∧
    ParallelPattern.edges.lookup "parallel_2" = some "parallel_3" ∧
    ParallelPattern.edges.lookup "parallel_3" = some "aggregate" ∧
    ParallelPattern.edges.lookup "aggregate" = some "END" ∧
    (∀ (a1 a2 a3 b2 b3 : String → String) (st st' : StateMap),
        st "user_request" = st' "user_request" →
        (ParallelV2.run_parallel_node a1 a2 a3 st).lookup "perspective_1" =
          (ParallelV2.run_parallel_node a1 b2 b3 st').lookup "perspective_1") ∧
    (∀ (a1 a2 a3 b1 b3 : String → String) (st st' : StateMap),
        st "user_request" = st' "user_request" →
        (ParallelV2.run_parallel_node a1 a2 a3 st).lookup "perspective_2" =
          (ParallelV2.run_parallel_node b1 a2 b3 st').lookup "perspective_2") ∧
    (∀ (a1 a2 a3 b1 b2 : String → String) (st st' : StateMap),
        st "user_request" = st' "user_request" →
        (ParallelV2.run_parallel_node a1 a2 a3 st).lookup "perspective_3" =
          (ParallelV2.run_parallel_node b1 b2 a3 st').lookup "perspective_3") ∧
    (ParallelV2.workflow_examples.filter (fun e => e.2)).map Prod.fst =
      ["8-patterns/3_1_paralell.py"] := by
  refine ⟨by decide, ?_, by decide, by decide, by decide, by decide,
    ?_, ?_, ?_, by decide⟩
  · intro n hn
    fin_cases hn <;> decide
  all_goals
    intro a1 a2 a3 b c st st' h
    simp [ParallelV2.run_parallel_node, pyGet, h, List.lookup]

/-- C1 witness: the out-degree of `parallel_1` is 1, and with all agents
the identity and two states agreeing on `user_request`, the first
gathered perspective agrees. -/
theorem C1_witness :
    ParallelPattern.out_degree ParallelPattern.edges "parallel_1" = 1 ∧
    (ParallelV2.run_parallel_node id id id (fun _ => Option.none)).lookup
        "perspective_1" =
      (ParallelV2.run_parallel_node id id id (fun _ => Option.none)).lookup
        "perspective_1" := by
  exact ⟨C1_parallel_is_sequential_only_v2_concurrent.2.1 "parallel_1" (by decide),
    C1_parallel_is_sequential_only_v2_concurrent.2.2.2.2.2.2.1 id id id id id
      (fun _ => Option.none) (fun _ => Option.none) rfl⟩

/-- C2: for each of the nine nodes of the Delivery Command Center graph,
when the underlying agent call raises (modelled as the call returning
`.error e`), the node catches it and returns an update that binds only
the `errors` key to the old error list extended by exactly one
descriptive message, so that merging the update changes the errors list
and nothing else.  Because every node is a total function into `NodeUpd`,
no node failure escapes the graph run. -/
theorem C2_every_node_catches_and_appends_one_error :
    ∀ (α : Type) (st : CommandCenter.WorkflowState α) (e : String),
      (∀ create_plan : String → Except String α,
        create_plan st.user_request = .error e →
        CommandCenter.planner_node create_plan st =
          .errors (st.errors ++ ["Planner error: " ++ e]) ∧
        CommandCenter.applyNodeUpd (CommandCenter.planner_node create_plan st) st =
          { st with errors := st.errors ++ ["Planner error: " ++ e] }) ∧
      (∀ analyze_sprint_health : Nat → Except String α,
        analyze_sprint_health 14 = .error e →
        CommandCenter.jira_analyst_node analyze_sprint_health st =
          .errors (st.errors ++ ["JIRA analysis error: " ++ e]) ∧
        CommandCenter.applyNodeUpd
            (CommandCenter.jira_analyst_node analyze_sprint_health st) st =
          { st with errors := st.errors ++ ["JIRA analysis error: " ++ e] }) ∧
      (∀ compute_risk : α → Nat → Except String α,
        compute_risk st.jira_analysis 14 = .error e →
        CommandCenter.risk_agent_node compute_risk st =
          .errors (st.errors ++ ["Risk analysis error: " ++ e]) ∧
        CommandCenter.applyNodeUpd
            (CommandCenter.risk_agent_node compute_risk st) st =
          { st with errors := st.errors ++ ["Risk analysis error: " ++ e] }) ∧
      (∀ (β : Type) (stories_of : α → β)
          (analyze_dependencies : β → α → Except String α),
        analyze_dependencies (stories_of st.jira_analysis) st.jira_analysis =
          .error e →
        CommandCenter.dependency_agent_node stories_of analyze_dependencies st =
          .errors (st.errors ++ ["Dependency analysis error: " ++ e]) ∧
        CommandCenter.applyNodeUpd
            (CommandCenter.dependency_agent_node stories_of analyze_dependencies st)
            st =
          { st with errors := st.errors ++ ["Dependency analysis error: " ++ e] }) ∧
      (∀ (draft_stakeholder_email : α → α → Nat → Except String α)
          (draft_status_report : α → α → Except String α) (mk_comms : α → α → α),
        (draft_stakeholder_email st.risk_report st.jira_analysis 14 = .error e ∨
          (∃ email : α,
            draft_stakeholder_email st.risk_report st.jira_analysis 14 = .ok email ∧
            draft_status_report st.jira_analysis st.risk_report = .error e)) →
        CommandCenter.comms_agent_node draft_stakeholder_email draft_status_report
            mk_comms st =
          .errors (st.errors ++ ["Comms error: " ++ e]) ∧
        CommandCenter.applyNodeUpd
            (CommandCenter.comms_agent_node draft_stakeholder_email
              draft_status_report mk_comms st) st =
          { st with errors := st.errors ++ ["Comms error: " ++ e] }) ∧
      (∀ prepare_actions : α → α → α → Except String α,
        prepare_actions st.risk_report st.dependency_analysis st.comms_output =
          .error e →
        CommandCenter.action_agent_node prepare_actions st =
          .errors (st.errors ++ ["Action error: " ++ e]) ∧
        CommandCenter.applyNodeUpd
            (CommandCenter.action_agent_node prepare_actions st) st =
          { st with errors := st.errors ++ ["Action error: " ++ e] }) ∧
      (∀ validate_actions : α → Except String α,
        validate_actions st.proposed_actions = .error e →
        CommandCenter.governance_agent_node validate_actions st =
          .errors (st.errors ++ ["Governance error: " ++ e]) ∧
        CommandCenter.applyNodeUpd
            (CommandCenter.governance_agent_node validate_actions st) st =
          { st with errors := st.errors ++ ["Governance error: " ++ e] }) ∧
      (∀ evaluate_workflow : CommandCenter.WorkflowState α → Except String α,
        evaluate_workflow st = .error e →
        CommandCenter.evaluator_node evaluate_workflow st =
          .errors (st.errors ++ ["Evaluation error: " ++ e]) ∧
        CommandCenter.applyNodeUpd
            (CommandCenter.evaluator_node evaluate_workflow st) st =
          { st with errors := st.errors ++ ["Evaluation error: " ++ e] }) ∧
      (∀ build_final_output : CommandCenter.WorkflowState α → Except String α,
        build_final_output st = .error e →
        CommandCenter.finalize_node build_final_output st =
          .errors (st.errors ++ ["Finalization error: " ++ e]) ∧
        CommandCenter.applyNodeUpd
            (CommandCenter.finalize_node build_final_output st) st =
          { st with errors := st.errors ++ ["Finalization error: " ++ e] }) := by
  intro α st e
  refine ⟨?_, ?_, ?_, ?_, ?_, ?_, ?_, ?_, ?_⟩
  · intro f hf
    refine ⟨?_, ?_⟩ <;>
      simp [CommandCenter.planner_node, hf, CommandCenter.applyNodeUpd]
  · intro f hf
    refine ⟨?_, ?_⟩ <;>
      simp [CommandCenter.jira_analyst_node, hf, CommandCenter.applyNodeUpd]
  · intro f hf
    refine ⟨?_, ?_⟩ <;>
      simp [CommandCenter.risk_agent_node, hf, CommandCenter.applyNodeUpd]
  · intro β g f hf
    refine ⟨?_, ?_⟩ <;>
      simp [CommandCenter.dependency_agent_node, hf, CommandCenter.applyNodeUpd]
  · intro de ds mk hcase
    rcases hcase with hf | ⟨email, hok, hf⟩
    · refine ⟨?_, ?_⟩ <;>
        simp [CommandCenter.comms_agent_node, hf, CommandCenter.applyNodeUpd]
    · refine ⟨?_, ?_⟩ <;>
        simp [CommandCenter.comms_agent_node, hok, hf, CommandCenter.applyNodeUpd]
  · intro f hf
    refine ⟨?_, ?_⟩ <;>
      simp [CommandCenter.action_agent_node, hf, CommandCenter.applyNodeUpd]
  · intro f hf
    refine ⟨?_, ?_⟩ <;>
      simp [CommandCenter.governance_agent_node, hf, CommandCenter.applyNodeUpd]
  · intro f hf
    refine ⟨?_, ?_⟩ <;>
      simp [CommandCenter.evaluator_node, hf, CommandCenter.applyNodeUpd]
  · intro f hf
    refine ⟨?_, ?_⟩ <;>
      simp [CommandCenter.finalize_node, hf, CommandCenter.applyNodeUpd]

/-- C2 witness: at a concrete state with empty error list and a planner
whose call raises `"boom"`, the planner node returns exactly one error
message and merging it only extends the error list. -/
theorem C2_witness :
    CommandCenter.planner_node (α := String) (fun _ => .error "boom")
        { user_request := "r", user_id := "u", user_role := "pm",
          conversation_id := "c", plan := "", jira_analysis := "",
          risk_report := "", dependency_analysis := "", comms_output := "",
          proposed_actions := "", governance_check := "",
          evaluation_results := "", final_output := "", errors := [] } =
      .errors ["Planner error: boom"] := by
  have h := (C2_every_node_catches_and_appends_one_error String
    { user_request := "r", user_id := "u", user_role := "pm",
      conversation_id := "c", plan := "", jira_analysis := "",
      risk_report := "", dependency_analysis := "", comms_output := "",
      proposed_actions := "", governance_check := "",
      evaluation_results := "", final_output := "", errors := [] }
    "boom").1 (fun _ => .error "boom") rfl
  simpa using h.1

/-- C9: when the resume value delivered to `human_approval` is `None` or
lacks a `"decision"` key, the decision defaults to `"approve"`: the
node's update sets only `human_decision` (to `"approve"`, no
`human_edit`), and the finalizer applied to the merged state returns the
unchanged draft as `final_answer`. -/
theorem C9_default_decision_is_approve :
    ∀ (st : StateMap) (response : HITL.ResumeVal),
      (response.getD []).lookup "decision" = Option.none →
      HITL.human_approval st (some response) =
        .resumed [("human_decision", PyVal.str "approve")] ∧
      ([("human_decision", PyVal.str "approve")] : StateUpd).lookup "human_edit" =
        Option.none ∧
      HITL.finalizer (applyUpdate [("human_decision", PyVal.str "approve")] st) =
        [("final_answer", pyGet st "draft")] := by
  intro st response h
  have hdec : HITL.resume_decision response = "approve" := by
    simp [HITL.resume_decision, h]
  refine ⟨?_, rfl, ?_⟩
  · simp [HITL.human_approval, hdec]
  · have hmerge : applyUpdate [("human_decision", PyVal.str "approve")] st
        "human_decision" = some (PyVal.str "approve") := by
      simp [applyUpdate, List.lookup]
    have hdraft : applyUpdate [("human_decision", PyVal.str "approve")] st
        "draft" = st "draft" := by
      simp [applyUpdate, List.lookup]
    have hedit : applyUpdate [("human_decision", PyVal.str "approve")] st
        "human_edit" = st "human_edit" := by
      simp [applyUpdate, List.lookup]
    simp only [HITL.finalizer, hmerge, pyGet, hdraft, hedit, PyVal.asStr]
    rw [if_neg (by decide : ¬("approve" : String) = "reject"),
      if_neg (fun hc =>
        absurd (of_decide_eq_true ((Bool.and_eq_true _ _).mp hc).1) (by decide))]

/-- C5: `human_approval` pauses at an interrupt whose payload carries the
current draft when no resume value has been supplied, and produces its
update only once a resume value is supplied; the update sets
`human_decision` to the supplied decision (for any decision among
approve/edit/reject), and on `"edit"` additionally sets `human_edit` to
the supplied `edited_text`, falling back to the existing draft when no
edited text is given. -/
theorem C5_human_approval_interrupt :
    ∀ (st : StateMap) (response : HITL.ResumeVal),
      (HITL.human_approval st Option.none = .paused (HITL.approval_payload st) ∧
        (HITL.approval_payload st).lookup "draft" = some (pyGet st "draft").asStr) ∧
      (∀ d : String, (d = "approve" ∨ d = "edit" ∨ d = "reject") →
        HITL.resume_decision response = d →
        ∃ u : StateUpd, HITL.human_approval st (some response) = .resumed u ∧
          u.lookup "human_decision" = some (PyVal.str d) ∧
          (d = "edit" →
            u.lookup "human_edit" = some (PyVal.str
              (((response.getD []).lookup "edited_text").getD
                (pyGet st "draft").asStr))) ∧
          (d = "edit" → (response.getD []).lookup "edited_text" = Option.none →
            u.lookup "human_edit" = some (PyVal.str (pyGet st "draft").asStr)) ∧
          (d ≠ "edit" → u.lookup "human_edit" = Option.none)) := by
  intro st response
  constructor
  · exact ⟨rfl, rfl⟩
  · intro d _hd hdec
    by_cases he : d = "edit"
    · subst he
      refine ⟨[("human_decision", PyVal.str "edit"),
        ("human_edit", PyVal.str (((response.getD []).lookup "edited_text").getD
          (pyGet st "draft").asStr))], ?_, ?_, ?_, ?_, ?_⟩
      · simp [HITL.human_approval, hdec]
      · simp [List.lookup]
      · intro _
        simp [List.lookup]
      · intro _ hn
        simp [List.lookup, hn]
      · intro hne
        exact absurd rfl hne
    · refine ⟨[("human_decision", PyVal.str d)], ?_, ?_, ?_, ?_, ?_⟩
      · simp [HITL.human_approval, hdec, he]
      · simp [List.lookup]
      · intro hc
        exact absurd hc he
      · intro hc
        exact absurd hc he
      · intro _
        simp [List.lookup, he]

/-- C5 witness: at a state with draft `"D"` the interrupt payload carries
`"D"`; resuming with `{"decision": "edit"}` (no edited text) sets the
decision and falls back to the draft for `human_edit`. -/
theorem C5_witness :
    (HITL.human_approval
        (fun k => if k = "draft" then some (PyVal.str "D") else Option.none)
        Option.none =
      .paused (HITL.approval_payload
        (fun k => if k = "draft" then some (PyVal.str "D") else Option.none))) ∧
    ∃ u : StateUpd,
      HITL.human_approval
          (fun k => if k = "draft" then some (PyVal.str "D") else Option.none)
          (some (some [("decision", "edit")])) = .resumed u ∧
      u.lookup "human_decision" = some (PyVal.str "edit") ∧
      u.lookup "human_edit" = some (PyVal.str "D") := by
  have h := C5_human_approval_interrupt
    (fun k => if k = "draft" then some (PyVal.str "D") else Option.none)
    (some [("decision", "edit")])
  refine ⟨h.1.1, ?_⟩
  obtain ⟨u, hu, hdec, _, hfall, _⟩ :=
    h.2 "edit" (Or.inr (Or.inl rfl)) (by decide)
  refine ⟨u, hu, hdec, ?_⟩
  have := hfall rfl (by decide)
  simpa [pyGet] using this

/-- C6: the finalizer reflects the human decision: on `"reject"` the
final answer is a rejection notice (and, whenever the draft is not
itself such a notice, differs from the draft); on `"edit"` with a
non-empty `human_edit` the final answer equals the edit; in every other
case (approve, an unrecognised decision, a missing decision, or an edit
without a usable `human_edit`) the final answer equals the draft
unchanged. -/
theorem C6_finalizer_reflects_decision :
    ∀ (st : StateMap) (dr : String),
      (st "human_decision" = some (PyVal.str "reject") →
        ∃ reason : String,
          HITL.finalizer st = [("final_answer", PyVal.str
            ("Rejected by human reviewer.\n\nReason: " ++ reason))] ∧
          (st "draft" = some (PyVal.str dr) →
            (¬ ∃ t : String, dr = "Rejected by human reviewer.\n\nReason: " ++ t) →
            HITL.finalizer st ≠ [("final_answer", PyVal.str dr)])) ∧
      (∀ e : String, st "human_decision" = some (PyVal.str "edit") →
        st "human_edit" = some (PyVal.str e) → e ≠ "" →
        HITL.finalizer st = [("final_answer", PyVal.str e)]) ∧
      (∀ d : String, st "human_decision" = some (PyVal.str d) →
        d ≠ "reject" → (d ≠ "edit" ∨ (pyGet st "human_edit").truthy = false) →
        HITL.finalizer st = [("final_answer", pyGet st "draft")]) ∧
      (st "human_decision" = Option.none →
        HITL.finalizer st = [("final_answer", pyGet st "draft")]) := by
  intro st dr
  refine ⟨?_, ?_, ?_, ?_⟩
  · intro hrej
    refine ⟨if (pyGet st "human_edit").truthy then (pyGet st "human_edit").asStr
        else "No reason provided.", ?_, ?_⟩
    · simp [HITL.finalizer, hrej, PyVal.asStr]
    · intro _hdr hnot heq
      have h1 : HITL.finalizer st = [("final_answer", PyVal.str
          ("Rejected by human reviewer.\n\nReason: " ++
            (if (pyGet st "human_edit").truthy then (pyGet st "human_edit").asStr
             else "No reason provided.")))] := by
        simp [HITL.finalizer, hrej, PyVal.asStr]
      rw [h1] at heq
      have : dr = "Rejected by human reviewer.\n\nReason: " ++
          (if (pyGet st "human_edit").truthy then (pyGet st "human_edit").asStr
           else "No reason provided.") := by
        have := List.head_eq_of_cons_eq heq
        have := (Prod.mk.injEq _ _ _ _).mp this
        cases PyVal.str.inj this.2
        rfl
      exact hnot ⟨_, this⟩
  · intro e hdec hedit hne
    have htru : (pyGet st "human_edit").truthy = true := by
      simp [pyGet, hedit, PyVal.truthy, hne]
    simp only [HITL.finalizer, hdec, PyVal.asStr]
    rw [if_neg (by decide : ¬("edit" : String) = "reject")]
    rw [if_pos (by simp [htru])]
    simp [pyGet, hedit, PyVal.asStr]
  · intro d hdec hnr hcase
    simp only [HITL.finalizer, hdec, PyVal.asStr]
    rw [if_neg hnr]
    rcases hcase with hne | hfalse
    · rw [if_neg (fun hc =>
        absurd (of_decide_eq_true ((Bool.and_eq_true _ _).mp hc).1) hne)]
    · rw [if_neg (fun hc => by
        rw [((Bool.and_eq_true _ _).mp hc).2] at hfalse
        exact Bool.noConfusion hfalse)]
  · intro hnone
    simp only [HITL.finalizer, hnone]
    rw [if_neg (by decide : ¬("approve" : String) = "reject"),
      if_neg (fun hc =>
        absurd (of_decide_eq_true ((Bool.and_eq_true _ _).mp hc).1) (by decide))]

/-- C6 witness: with decision `"reject"` and no reason, the finalizer
emits the default rejection notice and not the draft `"D"`; with decision
`"edit"` and `human_edit` `"E"`, it emits `"E"`. -/
theorem C6_witness :
    (HITL.finalizer (fun k =>
        if k = "human_decision" then some (PyVal.str "reject")
        else if k = "draft" then some (PyVal.str "D") else Option.none) ≠
      [("final_answer", PyVal.str "D")]) ∧
    HITL.finalizer (fun k =>
        if k = "human_decision" then some (PyVal.str "edit")
        else if k = "human_edit" then some (PyVal.str "E") else Option.none) =
      [("final_answer", PyVal.str "E")] := by
  constructor
  · obtain ⟨reason, _, hne⟩ :=
      (C6_finalizer_reflects_decision (fun k =>
        if k = "human_decision" then some (PyVal.str "reject")
        else if k = "draft" then some (PyVal.str "D") else Option.none) "D").1
        (by simp)
    refine hne (by simp) ?_
    rintro ⟨t, ht⟩
    have hlen := congrArg String.length ht
    rw [String.length_append] at hlen
    have h1 : ("D" : String).length = 1 := by decide
    have h2 : ("Rejected by human reviewer.\n\nReason: " : String).length = 37 := by
      decide
    rw [h1, h2] at hlen
    omega
  · exact (C6_finalizer_reflects_decision (fun k =>
        if k = "human_decision" then some (PyVal.str "edit")
        else if k = "human_edit" then some (PyVal.str "E") else Option.none)
        "").2.1 "E" (by simp) (by simp) (by decide)

/-- C9 witness: a resume value `{"reason": "x"}` with no decision key, at
a state holding a draft, yields the approve default and the draft as the
final answer. -/
theorem C9_witness :
    HITL.human_approval
        (fun k => if k = "draft" then some (PyVal.str "D") else Option.none)
        (some (some [("reason", "x")])) =
      .resumed [("human_decision", PyVal.str "approve")] ∧
    HITL.finalizer
        (applyUpdate [("human_decision", PyVal.str "approve")]
          (fun k => if k = "draft" then some (PyVal.str "D") else Option.none)) =
      [("final_answer", PyVal.str "D")] := by
  have h := C9_default_decision_is_approve
    (fun k => if k = "draft" then some (PyVal.str "D") else Option.none)
    (some [("reason", "x")]) (by decide)
  refine ⟨h.1, ?_⟩
  have h3 := h.2.2
  simpa [pyGet] using h3

/-- C7: on a cache miss (no truthy cached value under the question's
cache key), `run_pipeline` joins the top-3 retrieved chunks into the
context, builds a prompt that contains the question and whose context
block is `Context: <context>` exactly when the joined context is
non-blank (and empty otherwise), calls the model with that prompt and
the default model name, caches the response under the question and
returns it; on a cache hit it returns the cached response with no
retrieval call and no model call, leaving the cache unchanged. -/
theorem C7_run_pipeline_cache_and_prompt :
    ∀ (retrieve_documents : String → Nat → List String)
      (llm_call : String → String → String) (store : MidTermRag.RedisStore)
      (q : String),
      (∀ c : String, store (MidTermRag.cache_key q) = some c → c ≠ "" →
        MidTermRag.run_pipeline retrieve_documents llm_call (some store) q =
          .ok { response := c, client := some store,
                retrieval_calls := 0, llm_calls := 0 }) ∧
      ((store (MidTermRag.cache_key q) = Option.none ∨
          store (MidTermRag.cache_key q) = some "") →
        (MidTermRag.retrieve_context retrieve_documents q =
          String.intercalate "\n\n" (retrieve_documents q 3)) ∧
        ∃ store2 : MidTermRag.RedisStore,
          MidTermRag.run_pipeline retrieve_documents llm_call (some store) q =
            .ok { response := llm_call MidTermRag.DEFAULT_MODEL
                    (MidTermRag.build_prompt q
                      (MidTermRag.retrieve_context retrieve_documents q)).2,
                  client := some store2, retrieval_calls := 1, llm_calls := 1 } ∧
          store2 (MidTermRag.cache_key q) =
            some (llm_call MidTermRag.DEFAULT_MODEL
              (MidTermRag.build_prompt q
                (MidTermRag.retrieve_context retrieve_documents q)).2) ∧
          (∀ k, k ≠ MidTermRag.cache_key q → store2 k = store k)) ∧
      ((MidTermRag.build_prompt q
          (MidTermRag.retrieve_context retrieve_documents q)).1 =
        MidTermRag.DEFAULT_MODEL) ∧
      (∀ context : String, ∃ a b : String,
        (MidTermRag.build_prompt q context).2 = a ++ q ++ b) ∧
      (∀ context : String, context.trim = "" →
        (MidTermRag.build_prompt q context).2 = MidTermRag.TEMPLATE "" q) ∧
      (∀ context : String, context.trim ≠ "" →
        (MidTermRag.build_prompt q context).2 =
          MidTermRag.TEMPLATE ("Context: " ++ context) q) := by
  intro retrieve_documents llm_call store q
  refine ⟨?_, ?_, rfl, ?_, ?_, ?_⟩
  · intro c hc hne
    simp only [MidTermRag.run_pipeline, MidTermRag.cache_get, hc, hne,
      if_neg hne]
    rfl
  · intro hmiss
    refine ⟨rfl, ?_⟩
    refine ⟨fun k => if k = MidTermRag.cache_key q
        then some (llm_call MidTermRag.DEFAULT_MODEL
          (MidTermRag.build_prompt q
            (MidTermRag.retrieve_context retrieve_documents q)).2)
        else store k, ?_, ?_, ?_⟩
    · rcases hmiss with hmiss | hmiss <;>
      · simp only [MidTermRag.run_pipeline, MidTermRag.cache_get, hmiss,
          MidTermRag.cache_set, MidTermRag.retrieve_context]
        rfl
    · simp
    · intro k hk
      simp [hk]
  · intro context
    exact ⟨" You are a helpful assistant, answer the questions as best as you can.\n" ++
      (if context.trim = "" then "" else "Context: " ++ context) ++
      "\n\n\nQuestion: ", "\n\nAnswer:\n", rfl⟩
  · intro context hblank
    simp [MidTermRag.build_prompt, hblank]
  · intro context hblank
    simp [MidTermRag.build_prompt, hblank]

/-- C7 witness: with an everywhere-populated cache the pipeline returns
the cached response without effects, and with an empty cache it performs
one retrieval and one model call and caches the response. -/
theorem C7_witness :
    MidTermRag.run_pipeline (fun _ _ => ["chunk"]) (fun _ p => p)
        (some (fun _ => some "cached")) "q" =
      .ok { response := "cached", client := some (fun _ => some "cached"),
            retrieval_calls := 0, llm_calls := 0 } ∧
    ∃ store2 : MidTermRag.RedisStore,
      MidTermRag.run_pipeline (fun _ _ => ["chunk"]) (fun _ p => p)
          (some (fun _ => Option.none)) "q" =
        .ok { response := (MidTermRag.build_prompt "q"
                (MidTermRag.retrieve_context (fun _ _ => ["chunk"]) "q")).2,
              client := some store2, retrieval_calls := 1, llm_calls := 1 } ∧
      store2 (MidTermRag.cache_key "q") =
        some (MidTermRag.build_prompt "q"
          (MidTermRag.retrieve_context (fun _ _ => ["chunk"]) "q")).2 := by
  constructor
  · exact (C7_run_pipeline_cache_and_prompt (fun _ _ => ["chunk"]) (fun _ p => p)
      (fun _ => some "cached") "q").1 "cached" rfl (by decide)
  · obtain ⟨_, store2, hrun, hcache, _⟩ :=
      (C7_run_pipeline_cache_and_prompt (fun _ _ => ["chunk"]) (fun _ p => p)
        (fun _ => Option.none) "q").2.1 (Or.inl rfl)
    exact ⟨store2, hrun, hcache⟩

/-- C10: if the Redis connection attempt at import of `cache_store`
fails, `redis_client` is `None`, and then `cache_store.get`,
`cache_store.set` and hence `run_pipeline` all raise an
`AttributeError` (attribute access on `None`) instead of degrading to a
cache miss or no-op: the pipeline fails rather than running uncached. -/
theorem C10_none_redis_client_raises :
    ∀ (connect_error : String) (k v q : String)
      (retrieve_documents : String → Nat → List String)
      (llm_call : String → String → String) (ttl : Nat),
      MidTermRag.init_redis_client (.error connect_error) = Option.none ∧
      MidTermRag.cache_get Option.none k =
        .error "AttributeError: NoneType object has no attribute get" ∧
      MidTermRag.cache_set Option.none k v ttl =
        .error "AttributeError: NoneType object has no attribute setex" ∧
      MidTermRag.run_pipeline retrieve_documents llm_call Option.none q =
        .error "AttributeError: NoneType object has no attribute get" := by
  intro connect_error k v q retrieve_documents llm_call ttl
  exact ⟨rfl, rfl, rfl, rfl⟩
